import Mathlib

/-!
Verification of the pluggable logging facade of the shown fragment
(`src/lib/Core/Logging/LoggingAgent.hpp`) and of the
`Engine::ResourceAsyncReference` value type
(`src/lib/Engine/Resources/ResourceAsyncReference.hpp`),
as a shallow embedding in Lean.

The header declares `GetLoggingDriver` and `SetDriver` but their bodies
live in a translation unit that is not among the shown sources; those two
operations, together with the external `fmt` formatting subsystem and the
`ResourcePath` value type, are modelled from the spec (each such
definition says so in its doc comment).  Everything else is translated
directly from the header.
-/

namespace Core

/-- Severity of a log message: a closed enumeration determining which
Driver operation is invoked; it carries no other payload. -/
inductive Severity where
  | info
  | warning
  | error
  deriving DecidableEq, Repr

/-- A concrete logging Driver instance (the polymorphic sink `LoggingDriver`).
`id` models only the identity of the concrete instance the process-wide
slot refers to; the slot holds a non-owning reference. -/
structure LoggingDriver where
  id : Nat
  deriving DecidableEq, Repr

/-- One invocation of a Driver severity operation: which driver instance
received it, at which severity, and the fully rendered message string. -/
structure DriverCall where
  driver : Nat
  sev : Severity
  message : String
  deriving DecidableEq, Repr

/-- The process-wide mutable state of the logging core: the ActiveDriver
slot plus the trace of Driver invocations performed so far. -/
structure LogState where
  activeDriver : Option LoggingDriver
  calls : List DriverCall
  deriving DecidableEq, Repr

/-- The caller-visible fatal failures of a logging call: resolving an
unset ActiveDriver slot, or a malformed format template. -/
inductive LogFailure where
  | unconfiguredDriver
  | formatError
  deriving DecidableEq, Repr

/-- Modelled from the spec: `LoggingAgent::SetDriver` is declared at
`LoggingAgent.hpp:33` but its body is not among the shown sources.  Per
the spec it installs the given Driver into the process-wide ActiveDriver
slot, silently superseding any previously installed one (last-write-wins). -/
def SetDriver (aDriver : LoggingDriver) (s : LogState) : LogState :=
  { s with activeDriver := some aDriver }

/-- Modelled from the spec: `LoggingAgent::GetLoggingDriver` is declared at
`LoggingAgent.hpp:28` but its body is not among the shown sources.  Per the
spec it resolves the process-wide ActiveDriver slot, and resolving an unset
slot is the fatal unconfigured-driver failure (an unrecoverable error, never
a silent no-op). -/
def GetLoggingDriver (s : LogState) : Except LogFailure LoggingDriver :=
  match s.activeDriver with
  | some d => Except.ok d
  | none => Except.error LogFailure.unconfiguredDriver

/-- A formatting argument as captured by `fmt::make_format_args`: the shown
call sites use numbers and strings. -/
inductive FmtArg where
  | nat (n : Nat)
  | str (s : String)
  deriving DecidableEq, Repr

/-- The textual rendering of one formatting argument. -/
def FmtArg.render : FmtArg → String
  | FmtArg.nat n => toString n
  | FmtArg.str s => s

/-- Modelled from the spec: `fmt::make_format_args` packages the variadic
argument list for the external formatting subsystem; here each argument is
carried as its textual rendering. -/
def make_format_args (aArgs : List FmtArg) : List String :=
  aArgs.map FmtArg.render

/-- Modelled from the spec: the core of the external formatting subsystem
(`fmt::vformat`), a black box performing positional placeholder
substitution that either returns a string or signals a formatting error.
`\x7b\x7d` is replaced by the next unused argument; doubled braces are
escapes for literal braces; any other use of a brace, or a placeholder
with no remaining argument, is a formatting error (`none`). -/
def substPlaceholders : List Char → List String → Option String
  | [], _ => some ""
  | [c], _ =>
    if c = '\x7b' ∨ c = '\x7d' then none else some c.toString
  | c :: d :: cs, args =>
    if c = '\x7b' then
      if d = '\x7b' then
        (substPlaceholders cs args).map (fun r => "\x7b" ++ r)
      else if d = '\x7d' then
        match args with
        | a :: rest => (substPlaceholders cs rest).map (fun r => a ++ r)
        | [] => none
      else none
    else if c = '\x7d' then
      if d = '\x7d' then
        (substPlaceholders cs args).map (fun r => "\x7d" ++ r)
      else none
    else
      (substPlaceholders (d :: cs) args).map (fun r => c.toString ++ r)

/-- Modelled from the spec: `fmt::vformat` applied to a format string and
the packaged argument list. -/
def vformat (aFormat : String) (args : List String) : Option String :=
  substPlaceholders aFormat.toList args

/-- The observable steps of one logging call, recorded in execution order. -/
inductive LogStep where
  | resolve
  | render
  | dispatch
  deriving DecidableEq, Repr

/-- One logging call, translated from the bodies of `LoggingAgent::LogInfo`
/ `LogWarning` / `LogError` (`LoggingAgent.hpp:10-26`):

`GetLoggingDriver().LogX(fmt::vformat(aFormat, fmt::make_format_args(aArgs...)))`

The three bodies differ only in which Driver operation `LogX` is invoked,
so they share this definition parametrised by the severity.  Under C++17
sequencing rules the postfix expression `GetLoggingDriver().LogX` is
evaluated before the argument expression `fmt::vformat(...)`, so the slot
is resolved first, then the message is rendered, then the Driver operation
runs; the first component records the steps in that execution order, and a
fatal failure cuts the sequence short at the failing step. -/
def logCall (sev : Severity) (aFormat : String) (aArgs : List FmtArg) (s : LogState) :
    List LogStep × Except LogFailure LogState :=
  match GetLoggingDriver s with
  | Except.error e => ([LogStep.resolve], Except.error e)
  | Except.ok d =>
    match vformat aFormat (make_format_args aArgs) with
    | none => ([LogStep.resolve, LogStep.render], Except.error LogFailure.formatError)
    | some msg =>
      ([LogStep.resolve, LogStep.render, LogStep.dispatch],
        Except.ok { s with calls := s.calls ++ [⟨d.id, sev, msg⟩] })

/-- The per-call algorithm as the spec words it (spec section 4.2): first
render the template into a string, then resolve the slot, then dispatch.
Stated only to compare with `logCall`, which follows the source. -/
def logCallSpecOrder (sev : Severity) (aFormat : String) (aArgs : List FmtArg) (s : LogState) :
    List LogStep × Except LogFailure LogState :=
  match vformat aFormat (make_format_args aArgs) with
  | none => ([LogStep.render], Except.error LogFailure.formatError)
  | some msg =>
    match GetLoggingDriver s with
    | Except.error e => ([LogStep.render, LogStep.resolve], Except.error e)
    | Except.ok d =>
      ([LogStep.render, LogStep.resolve, LogStep.dispatch],
        Except.ok { s with calls := s.calls ++ [⟨d.id, sev, msg⟩] })

/-- The Agent capability (`class LoggingAgent`, `LoggingAgent.hpp:7-34`).
The C++ class declares no non-static data members; `instanceId` models only
the identity of the component instance the capability is mixed into, and no
operation reads it, mirroring that the method bodies touch only the static
slot. -/
structure LoggingAgent where
  instanceId : Nat
  deriving DecidableEq, Repr

/-- `LoggingAgent::LogInfo` (`LoggingAgent.hpp:10-14`). -/
def LoggingAgent.LogInfo (_ : LoggingAgent) (aFormat : String) (aArgs : List FmtArg)
    (s : LogState) : Except LogFailure LogState :=
  (logCall Severity.info aFormat aArgs s).2

/-- `LoggingAgent::LogWarning` (`LoggingAgent.hpp:16-20`). -/
def LoggingAgent.LogWarning (_ : LoggingAgent) (aFormat : String) (aArgs : List FmtArg)
    (s : LogState) : Except LogFailure LogState :=
  (logCall Severity.warning aFormat aArgs s).2

/-- `LoggingAgent::LogError` (`LoggingAgent.hpp:22-26`). -/
def LoggingAgent.LogError (_ : LoggingAgent) (aFormat : String) (aArgs : List FmtArg)
    (s : LogState) : Except LogFailure LogState :=
  (logCall Severity.error aFormat aArgs s).2

/-- The Driver invocations a call starting from state `s` added to the
trace (empty when the call failed). -/
def newCalls (s : LogState) (r : Except LogFailure LogState) : List DriverCall :=
  match r with
  | Except.ok s2 => s2.calls.drop s.calls.length
  | Except.error _ => []

/-- Perform a sequence of Driver registrations in order. -/
def registerAll (ds : List LoggingDriver) (s : LogState) : LogState :=
  ds.foldl (fun t d => SetDriver d t) s

/-- How many Drivers the process-wide slot currently holds. -/
def driversInstalled (s : LogState) : Nat :=
  match s.activeDriver with
  | none => 0
  | some _ => 1

end Core

namespace Engine

/-- Modelled from the spec: `ResourcePath` is included from
`ResourcePath.hpp`, which is not among the shown sources; per the spec it
is a small value type identifying an engine resource by path,
constructible from a string. -/
structure ResourcePath where
  raw : String
  deriving DecidableEq, Repr

/-- Construction of a `ResourcePath` from a string literal, as in the
default argument `ResourcePath aPath = ""`. -/
def ResourcePath.ofString (s : String) : ResourcePath :=
  ⟨s⟩

/-- `Engine::ResourceAsyncReference` (`ResourceAsyncReference.hpp:8-16`):
a struct holding the single field `path`. -/
structure ResourceAsyncReference where
  path : ResourcePath
  deriving DecidableEq, Repr

/-- The constructor `explicit ResourceAsyncReference(ResourcePath aPath = "")`
(`ResourceAsyncReference.hpp:10-13`): called with no argument it uses the
default `ResourcePath("")`; in either case the member init list sets `path`
from `aPath` and nothing else. -/
def ResourceAsyncReference.construct : Option ResourcePath → ResourceAsyncReference
  | some aPath => { path := aPath }
  | none => { path := ResourcePath.ofString "" }

end Engine

/-- Helper: a nonempty sequence of registrations leaves the last driver in
the slot. -/
theorem Core.registerAll_cons_activeDriver (ds : List Core.LoggingDriver)
    (d : Core.LoggingDriver) (s : Core.LogState) :
    (Core.registerAll (d :: ds) s).activeDriver = (d :: ds).getLast? := by
  induction ds generalizing d s with
  | nil => rfl
  | cons d2 ds2 ih =>
    have h : Core.registerAll (d :: d2 :: ds2) s =
        Core.registerAll (d2 :: ds2) (Core.SetDriver d s) := rfl
    rw [h, ih d2 (Core.SetDriver d s), List.getLast?_cons_cons]

/-- C1: each of the three logging entry points delivers to the Driver
exactly the deterministic template-substitution result of the template
against the arguments; the rendered message is `m` for every installed
driver `d`, so it does not depend on which concrete Driver occupies the
ActiveDriver slot. -/
theorem Core.log_renders_template_driver_independent
    (ag : Core.LoggingAgent) (f : String) (a : List Core.FmtArg) (m : String)
    (s : Core.LogState) (d : Core.LoggingDriver)
    (hd : s.activeDriver = some d)
    (hm : Core.vformat f (Core.make_format_args a) = some m) :
    (Core.newCalls s (ag.LogInfo f a s)).map Core.DriverCall.message = [m] ∧
    (Core.newCalls s (ag.LogWarning f a s)).map Core.DriverCall.message = [m] ∧
    (Core.newCalls s (ag.LogError f a s)).map Core.DriverCall.message = [m] := by
  refine ⟨?_, ?_, ?_⟩ <;>
    simp [Core.LoggingAgent.LogInfo, Core.LoggingAgent.LogWarning,
      Core.LoggingAgent.LogError, Core.logCall, Core.GetLoggingDriver, hd, hm,
      Core.newCalls]

/-- Witness for C1 at a concrete input. -/
theorem Core.log_renders_template_driver_independent_witness :
    (Core.LogState.mk (some ⟨1⟩) []).activeDriver = some ⟨1⟩ ∧
    Core.vformat "x" (Core.make_format_args []) = some "x" ∧
    (Core.newCalls (Core.LogState.mk (some ⟨1⟩) [])
      ((Core.LoggingAgent.mk 0).LogInfo "x" [] (Core.LogState.mk (some ⟨1⟩) []))).map
        Core.DriverCall.message = ["x"] :=
  ⟨rfl, by decide,
    (Core.log_renders_template_driver_independent ⟨0⟩ "x" [] "x"
      (Core.LogState.mk (some ⟨1⟩) []) ⟨1⟩ rfl (by decide)).1⟩

/-- C3: invoking any of the three logging entry points in a state where no
Driver has ever been registered deterministically yields the fatal
unconfigured-driver error — never a silent success — and no Driver
operation is invoked (no dispatch step occurs). -/
theorem Core.unconfigured_logging_fatal
    (ag : Core.LoggingAgent) (f : String) (a : List Core.FmtArg) (s : Core.LogState)
    (h : s.activeDriver = none) :
    ag.LogInfo f a s = Except.error Core.LogFailure.unconfiguredDriver ∧
    ag.LogWarning f a s = Except.error Core.LogFailure.unconfiguredDriver ∧
    ag.LogError f a s = Except.error Core.LogFailure.unconfiguredDriver ∧
    ∀ sev : Core.Severity, Core.LogStep.dispatch ∉ (Core.logCall sev f a s).1 := by
  refine ⟨?_, ?_, ?_, ?_⟩ <;>
    simp [Core.LoggingAgent.LogInfo, Core.LoggingAgent.LogWarning,
      Core.LoggingAgent.LogError, Core.logCall, Core.GetLoggingDriver, h]

/-- Witness for C3 at a concrete input (spec Scenario B). -/
theorem Core.unconfigured_logging_fatal_witness :
    (Core.LogState.mk none []).activeDriver = none ∧
    (Core.LoggingAgent.mk 0).LogWarning "x" [] (Core.LogState.mk none []) =
      Except.error Core.LogFailure.unconfiguredDriver :=
  ⟨rfl, (Core.unconfigured_logging_fatal ⟨0⟩ "x" [] (Core.LogState.mk none []) rfl).2.1⟩

/-- C9: the Agent capability is stateless per instance: the same entry
point, template, arguments and shared state produce the same outcome no
matter which component instance the call goes through. -/
theorem Core.agent_stateless_per_instance
    (ag1 ag2 : Core.LoggingAgent) (f : String) (a : List Core.FmtArg)
    (s : Core.LogState) :
    ag1.LogInfo f a s = ag2.LogInfo f a s ∧
    ag1.LogWarning f a s = ag2.LogWarning f a s ∧
    ag1.LogError f a s = ag2.LogError f a s :=
  ⟨rfl, rfl, rfl⟩

/-- C10: the no-argument constructor yields `path = ResourcePath("")`, the
one-argument constructor yields `path = p`, and nothing else is set (the
whole record is determined). -/
theorem Engine.resourceAsyncReference_construct_path :
    (Engine.ResourceAsyncReference.construct none).path =
      Engine.ResourcePath.ofString "" ∧
    (Engine.ResourceAsyncReference.construct none) =
      { path := Engine.ResourcePath.ofString "" } ∧
    ∀ p : Engine.ResourcePath,
      Engine.ResourceAsyncReference.construct (some p) = { path := p } ∧
      (Engine.ResourceAsyncReference.construct (some p)).path = p :=
  ⟨rfl, rfl, fun _ => ⟨rfl, rfl⟩⟩

/-- C2: after any nonempty sequence of registrations the driver resolved
by the next logging call is the last one registered, and any Driver
invocation made by that call goes to the last-registered instance — an
earlier driver receives nothing. -/
theorem Core.last_registered_driver_wins
    (s : Core.LogState) (ds : List Core.LoggingDriver) (hne : ds ≠ []) :
    Core.GetLoggingDriver (Core.registerAll ds s) = Except.ok (ds.getLast hne) ∧
    ∀ (sev : Core.Severity) (f : String) (a : List Core.FmtArg) (c : Core.DriverCall),
      c ∈ Core.newCalls (Core.registerAll ds s)
          (Core.logCall sev f a (Core.registerAll ds s)).2 →
      c.driver = (ds.getLast hne).id := by
  have had : (Core.registerAll ds s).activeDriver = some (ds.getLast hne) := by
    cases ds with
    | nil => exact absurd rfl hne
    | cons d ds2 =>
      rw [Core.registerAll_cons_activeDriver, List.getLast?_eq_getLast_of_ne_nil hne]
  constructor
  · simp [Core.GetLoggingDriver, had]
  · intro sev f a c hc
    cases hv : Core.vformat f (Core.make_format_args a) with
    | none =>
      simp [Core.newCalls, Core.logCall, Core.GetLoggingDriver, had, hv] at hc
    | some m =>
      simp [Core.newCalls, Core.logCall, Core.GetLoggingDriver, had, hv] at hc
      simp [hc]

/-- Witness for C2 at a concrete input (spec Scenario C): after Driver 1
then Driver 2 register, the resolved driver is Driver 2. -/
theorem Core.last_registered_driver_wins_witness :
    ([⟨1⟩, ⟨2⟩] : List Core.LoggingDriver) ≠ [] ∧
    Core.GetLoggingDriver (Core.registerAll [⟨1⟩, ⟨2⟩] (Core.LogState.mk none [])) =
      Except.ok (([⟨1⟩, ⟨2⟩] : List Core.LoggingDriver).getLast (by decide)) :=
  ⟨by decide,
    (Core.last_registered_driver_wins (Core.LogState.mk none []) [⟨1⟩, ⟨2⟩] (by decide)).1⟩

/-- C4: the process-wide slot holds at most one Driver at any instant,
every operation (registration and every logging call) preserves this, and
every entry point resolves to and dispatches to that same single installed
instance. -/
theorem Core.single_active_driver_invariant (s : Core.LogState) :
    Core.driversInstalled s ≤ 1 ∧
    (∀ d, Core.driversInstalled (Core.SetDriver d s) ≤ 1) ∧
    (∀ (sev : Core.Severity) (f : String) (a : List Core.FmtArg) (s2 : Core.LogState),
      (Core.logCall sev f a s).2 = Except.ok s2 →
      Core.driversInstalled s2 ≤ 1 ∧ s2.activeDriver = s.activeDriver) ∧
    (∀ d, s.activeDriver = some d →
      ∀ (sev : Core.Severity) (f : String) (a : List Core.FmtArg) (c : Core.DriverCall),
        c ∈ Core.newCalls s (Core.logCall sev f a s).2 → c.driver = d.id) := by
  refine ⟨?_, ?_, ?_, ?_⟩
  · cases h : s.activeDriver <;> simp [Core.driversInstalled, h]
  · intro d
    simp [Core.driversInstalled, Core.SetDriver]
  · intro sev f a s2 h2
    cases hd : s.activeDriver with
    | none => simp [Core.logCall, Core.GetLoggingDriver, hd] at h2
    | some d =>
      cases hv : Core.vformat f (Core.make_format_args a) with
      | none => simp [Core.logCall, Core.GetLoggingDriver, hd, hv] at h2
      | some m =>
        simp [Core.logCall, Core.GetLoggingDriver, hd, hv] at h2
        subst h2
        simp [Core.driversInstalled, hd]
  · intro d hd sev f a c hc
    cases hv : Core.vformat f (Core.make_format_args a) with
    | none => simp [Core.newCalls, Core.logCall, Core.GetLoggingDriver, hd, hv] at hc
    | some m =>
      simp [Core.newCalls, Core.logCall, Core.GetLoggingDriver, hd, hv] at hc
      simp [hc]

/-- Witness for C4 at a concrete input: a successful logging call keeps at
most one installed driver. -/
theorem Core.single_active_driver_invariant_witness :
    (Core.logCall Core.Severity.info "x" [] (Core.LogState.mk (some ⟨1⟩) [])).2 =
      Except.ok (Core.LogState.mk (some ⟨1⟩) [⟨1, Core.Severity.info, "x"⟩]) ∧
    Core.driversInstalled
      (Core.LogState.mk (some ⟨1⟩) [⟨1, Core.Severity.info, "x"⟩]) ≤ 1 :=
  ⟨rfl,
    ((Core.single_active_driver_invariant (Core.LogState.mk (some ⟨1⟩) [])).2.2.1
      Core.Severity.info "x" [] _ rfl).1⟩

/-- C5 counterexample: at a concrete input with a Driver installed and a
well-formed template, the call performs its steps as resolve, render,
dispatch — not in the claimed order render, resolve, dispatch.  The
difference is observable: from the unconfigured state with a malformed
template the source's call fails with the unconfigured-driver error, while
the spec-ordered algorithm fails at render with the format error. -/
theorem Core.log_step_order_counterexample :
    (Core.logCall Core.Severity.info "x" [] (Core.LogState.mk (some ⟨1⟩) [])).1 =
      [Core.LogStep.resolve, Core.LogStep.render, Core.LogStep.dispatch] ∧
    ¬ (Core.logCall Core.Severity.info "x" [] (Core.LogState.mk (some ⟨1⟩) [])).1 =
      [Core.LogStep.render, Core.LogStep.resolve, Core.LogStep.dispatch] ∧
    (Core.logCall Core.Severity.warning "\x7b" [] (Core.LogState.mk none [])).2 =
      Except.error Core.LogFailure.unconfiguredDriver ∧
    (Core.logCallSpecOrder Core.Severity.warning "\x7b" [] (Core.LogState.mk none [])).2 =
      Except.error Core.LogFailure.formatError :=
  ⟨by decide, by decide, rfl, rfl⟩

/-- C5 amended: every logging call first resolves the process-wide
ActiveDriver slot, then renders the template against the arguments into a
single string, then dispatches the rendered string to the corresponding
severity operation of the resolved Driver (C++17 sequences the callee
expression `GetLoggingDriver().LogX` before its argument
`fmt::vformat(...)`). -/
theorem Core.log_steps_resolve_render_dispatch
    (sev : Core.Severity) (f : String) (a : List Core.FmtArg) (s : Core.LogState)
    (d : Core.LoggingDriver) (m : String)
    (hd : s.activeDriver = some d)
    (hm : Core.vformat f (Core.make_format_args a) = some m) :
    Core.logCall sev f a s =
      ([Core.LogStep.resolve, Core.LogStep.render, Core.LogStep.dispatch],
        Except.ok { s with calls := s.calls ++ [⟨d.id, sev, m⟩] }) := by
  simp [Core.logCall, Core.GetLoggingDriver, hd, hm]

/-- Witness for the amended C5 at a concrete input. -/
theorem Core.log_steps_resolve_render_dispatch_witness :
    (Core.LogState.mk (some ⟨1⟩) []).activeDriver = some ⟨1⟩ ∧
    Core.vformat "x" (Core.make_format_args []) = some "x" ∧
    Core.logCall Core.Severity.info "x" [] (Core.LogState.mk (some ⟨1⟩) []) =
      ([Core.LogStep.resolve, Core.LogStep.render, Core.LogStep.dispatch],
        Except.ok (Core.LogState.mk (some ⟨1⟩) [⟨1, Core.Severity.info, "x"⟩])) :=
  ⟨rfl, by decide,
    Core.log_steps_resolve_render_dispatch Core.Severity.info "x" []
      (Core.LogState.mk (some ⟨1⟩) []) ⟨1⟩ "x" rfl (by decide)⟩

/-- C6: each Agent entry point dispatches to the Driver operation of the
same severity (LogInfo to info, LogWarning to warning, LogError to error),
and the Driver receives exactly the rendered string; in particular the
template `loaded \x7b\x7d items` with argument 42 renders to exactly
`loaded 42 items`. -/
theorem Core.severity_dispatch_exact_message
    (ag : Core.LoggingAgent) (f : String) (a : List Core.FmtArg) (m : String)
    (s : Core.LogState) (d : Core.LoggingDriver)
    (hd : s.activeDriver = some d)
    (hm : Core.vformat f (Core.make_format_args a) = some m) :
    (ag.LogInfo f a s =
      Except.ok { s with calls := s.calls ++ [⟨d.id, Core.Severity.info, m⟩] }) ∧
    (ag.LogWarning f a s =
      Except.ok { s with calls := s.calls ++ [⟨d.id, Core.Severity.warning, m⟩] }) ∧
    (ag.LogError f a s =
      Except.ok { s with calls := s.calls ++ [⟨d.id, Core.Severity.error, m⟩] }) ∧
    Core.vformat "loaded \x7b\x7d items" (Core.make_format_args [Core.FmtArg.nat 42]) =
      some "loaded 42 items" := by
  refine ⟨?_, ?_, ?_, by decide⟩ <;>
    simp [Core.LoggingAgent.LogInfo, Core.LoggingAgent.LogWarning,
      Core.LoggingAgent.LogError, Core.logCall, Core.GetLoggingDriver, hd, hm]

/-- Witness for C6 at the concrete input of spec Scenario A. -/
theorem Core.severity_dispatch_exact_message_witness :
    Core.vformat "loaded \x7b\x7d items" (Core.make_format_args [Core.FmtArg.nat 42]) =
      some "loaded 42 items" ∧
    (Core.LoggingAgent.mk 0).LogInfo "loaded \x7b\x7d items" [Core.FmtArg.nat 42]
        (Core.LogState.mk (some ⟨1⟩) []) =
      Except.ok
        (Core.LogState.mk (some ⟨1⟩) [⟨1, Core.Severity.info, "loaded 42 items"⟩]) :=
  ⟨by decide,
    (Core.severity_dispatch_exact_message ⟨0⟩ "loaded \x7b\x7d items"
      [Core.FmtArg.nat 42] "loaded 42 items" (Core.LogState.mk (some ⟨1⟩) []) ⟨1⟩
      rfl (by decide)).1⟩

/-- C7: calling LogInfo twice with the same template and arguments (with a
Driver registered) delivers two separate Driver calls carrying identical
rendered strings — no deduplication, queuing or suppression. -/
theorem Core.logInfo_twice_two_identical_calls
    (ag : Core.LoggingAgent) (f : String) (a : List Core.FmtArg) (m : String)
    (s : Core.LogState) (d : Core.LoggingDriver)
    (hd : s.activeDriver = some d)
    (hm : Core.vformat f (Core.make_format_args a) = some m) :
    ag.LogInfo f a s =
      Except.ok { s with calls := s.calls ++ [⟨d.id, Core.Severity.info, m⟩] } ∧
    ag.LogInfo f a { s with calls := s.calls ++ [⟨d.id, Core.Severity.info, m⟩] } =
      Except.ok { s with calls :=
        s.calls ++ [⟨d.id, Core.Severity.info, m⟩, ⟨d.id, Core.Severity.info, m⟩] } := by
  constructor
  · simp [Core.LoggingAgent.LogInfo, Core.logCall, Core.GetLoggingDriver, hd, hm]
  · simp [Core.LoggingAgent.LogInfo, Core.logCall, Core.GetLoggingDriver, hd, hm]

/-- Witness for C7 at a concrete input. -/
theorem Core.logInfo_twice_two_identical_calls_witness :
    (Core.LogState.mk (some ⟨1⟩) []).activeDriver = some ⟨1⟩ ∧
    Core.vformat "x" (Core.make_format_args []) = some "x" ∧
    (Core.LoggingAgent.mk 0).LogInfo "x" []
        (Core.LogState.mk (some ⟨1⟩) [⟨1, Core.Severity.info, "x"⟩]) =
      Except.ok (Core.LogState.mk (some ⟨1⟩)
        [⟨1, Core.Severity.info, "x"⟩, ⟨1, Core.Severity.info, "x"⟩]) :=
  ⟨rfl, by decide,
    (Core.logInfo_twice_two_identical_calls ⟨0⟩ "x" [] "x"
      (Core.LogState.mk (some ⟨1⟩) []) ⟨1⟩ rfl (by decide)).2⟩

/-- C8: a logging call never changes the process-wide ActiveDriver slot
(whatever its severity, template or arguments), while the privileged
registration operation is exactly what sets it. -/
theorem Core.logging_leaves_slot_unchanged
    (sev : Core.Severity) (f : String) (a : List Core.FmtArg) (s : Core.LogState) :
    (∀ s2, (Core.logCall sev f a s).2 = Except.ok s2 →
      s2.activeDriver = s.activeDriver) ∧
    (∀ d, (Core.SetDriver d s).activeDriver = some d) := by
  constructor
  · intro s2 h2
    cases hd : s.activeDriver with
    | none => simp [Core.logCall, Core.GetLoggingDriver, hd] at h2
    | some d =>
      cases hv : Core.vformat f (Core.make_format_args a) with
      | none => simp [Core.logCall, Core.GetLoggingDriver, hd, hv] at h2
      | some m =>
        simp [Core.logCall, Core.GetLoggingDriver, hd, hv] at h2
        subst h2
        simp [hd]
  · intro d
    simp [Core.SetDriver]

/-- Witness for C8 at a concrete input. -/
theorem Core.logging_leaves_slot_unchanged_witness :
    (Core.logCall Core.Severity.info "x" [] (Core.LogState.mk (some ⟨1⟩) [])).2 =
      Except.ok (Core.LogState.mk (some ⟨1⟩) [⟨1, Core.Severity.info, "x"⟩]) ∧
    (Core.LogState.mk (some ⟨1⟩) [⟨1, Core.Severity.info, "x"⟩]).activeDriver =
      (Core.LogState.mk (some ⟨1⟩) []).activeDriver :=
  ⟨rfl,
    (Core.logging_leaves_slot_unchanged Core.Severity.info "x" []
      (Core.LogState.mk (some ⟨1⟩) [])).1 _ rfl⟩
